import Mathlib

/-!
Verification development for the archetypal template object model.

The definitions below are a shallow embedding of the template/combination
engine of the repository: `archetypal/template/umi_base.py`,
`archetypal/template/glazing_material.py`, `archetypal/template/zone.py`,
`archetypal/template/zone_construction_set.py`, `archetypal/template/window.py`
and `archetypal/umi_template.py`.  Python floats are modelled as rationals
(the claims under study are algebraic identities, not rounding statements),
Python object identity as explicit natural-number instance ids with a
fresh-id allocator, in-place mutation as explicit state passing, and raising
as `Except`/`Option` results.  Components of the repository that the claims
need but whose modules are not part of the studied sources are modelled from
the specification and carry a doc comment starting with `Modelled from the
spec:`.
-/

/-! ## Identity and cache layer (`umi_base.py`) -/

/-- A cache key: the pair (concrete class name, value of the `Name`
constructor argument), exactly the key built by `Unique.__call__`
(umi_base.py line 27: `key = (cls.mro()[0].__name__, kwargs['Name'])`). -/
abbrev CacheKey := String × String

/-- State of the process-wide registry `created_obj` (umi_base.py line 264)
together with a fresh-instance allocator: each run of `cls.__new__` in Python
produces an object distinct from every live object, modelled by handing out
`next` and incrementing it. -/
structure CacheState where
  created : List (CacheKey × Nat)
  next : Nat
deriving DecidableEq

/-- Lookup of a key in the registry, as `key not in created_obj` /
`created_obj[key]` do in `Unique.__call__`. -/
def CacheState.lookup (st : CacheState) (k : CacheKey) : Option Nat :=
  (st.created.find? (fun p => p.1 == k)).map (fun p => p.2)

/-- Well-formedness of the allocator: every instance id handed out so far is
below `next`, so a freshly allocated id is distinct from every registered
instance. -/
def CacheState.WF (st : CacheState) : Prop :=
  ∀ p ∈ st.created, p.2 < st.next

/-- `Unique.__call__` (umi_base.py lines 17-33): if `(cls, Name)` is already in
`created_obj`, return the registered instance without running the constructor
(so the call's other arguments have no effect, which is why `args` is unused
here); otherwise build a fresh instance from the arguments and register it
under the key.  The returned `Nat` is the identity of the returned object. -/
def uniqueCall (st : CacheState) (cls Name : String) (args : List Int) : Nat × CacheState :=
  match st.lookup (cls, Name) with
  | some i => (i, st)
  | none =>
      (st.next, { created := ((cls, Name), st.next) :: st.created, next := st.next + 1 })

/-- `UmiBase.clear_cache` (umi_base.py lines 93-95): `created_obj.clear()`.
Only the registry is emptied; objects already allocated stay live, so the
allocator counter is kept. -/
def clearCache (st : CacheState) : CacheState :=
  { st with created := [] }

/-- `Zone.__init__` (zone.py lines 44-99): `Zone` is declared without the
`Unique` metaclass (`class Zone(UmiBase)`), so every constructor call runs
`__init__` on a brand-new instance and (re)registers it in `Zone._cache` and
`CREATED_OBJECTS` under `hash((Name, id(idf)))`; the constructor never returns
a previously cached instance (that path exists only in
`Zone.get_cached`/`Zone.from_zone_epbunch`). -/
def zoneConstruct (st : CacheState) (Name idfId : String) : Nat × CacheState :=
  (st.next, { created := ((Name, idfId), st.next) :: st.created, next := st.next + 1 })

/-! ## Generic combination helpers (`umi_base.py`) -/

/-- `UmiBase._float_mean` (umi_base.py lines 123-138) on two present floats:
`np.average([x, y], weights=weights)`, i.e. `(w₁·x + w₂·y)/(w₁ + w₂)` when
weights are supplied and the plain mean otherwise.  `np.average` raises on a
zero total weight; theorems about this function therefore carry a nonzero
total weight hypothesis where weights are involved. -/
def floatMean (weights : Option (ℚ × ℚ)) (x y : ℚ) : ℚ :=
  match weights with
  | none => (x + y) / 2
  | some (w₁, w₂) => (w₁ * x + w₂ * y) / (w₁ + w₂)

/-- `UmiBase._str_mean` (umi_base.py lines 140-165).  The third branch tests
Python truthiness, so a present-but-empty string behaves like an absent one
there and the function can return `None` for two present empty strings. -/
def strMean (append : Bool) (x y : Option String) : Option String :=
  match x, y with
  | some a, none => some a
  | none, some b => some b
  | some a, some b =>
      if a ≠ "" ∧ b ≠ "" then (if append then some (a ++ b) else some a) else none
  | none, none => none

/-! ## Glazing materials (`glazing_material.py`) -/

/-- A `GlazingMaterial` instance: the attributes set by `UmiBase.__init__`,
`MaterialBase.__init__` and `GlazingMaterial.__init__` (glazing_material.py
lines 21-92), minus the runtime-only `idf`/`sql`/`all_objects` attributes that
`combine` explicitly excludes.  `DataSource` can be `None` (umi_base.py lines
79-85) and the `Type` constructor argument defaults to `None`, hence the
`Option` types; `Type` is a Lean keyword, so that field is named `Type_`. -/
structure GlazingMaterial where
  Name : String
  Category : Option String
  Comments : String
  DataSource : Option String
  id : Nat
  Life : ℚ
  Cost : ℚ
  Type_ : Option String
  DirtFactor : ℚ
  IREmissivityBack : ℚ
  IREmissivityFront : ℚ
  IRTransmittance : ℚ
  VisibleReflectanceBack : ℚ
  VisibleReflectanceFront : ℚ
  VisibleTransmittance : ℚ
  SolarReflectanceBack : ℚ
  SolarReflectanceFront : ℚ
  SolarTransmittance : ℚ
  Density : ℚ
  Conductivity : ℚ
  EmbodiedCarbon : ℚ
  EmbodiedEnergy : ℚ
  SubstitutionRatePattern : List ℚ
  SubstitutionTimestep : ℚ
  TransportCarbon : ℚ
  TransportDistance : ℚ
  TransportEnergy : ℚ
deriving DecidableEq

/-- `GlazingMaterial.__eq__` (glazing_material.py lines 101-123): value
equality over the fifteen listed physical/commercial attributes; `Name`,
`Category`, `Comments`, `DataSource`, the id and the embodied/transport
attributes are not compared. -/
def glazingEq (a b : GlazingMaterial) : Prop :=
  a.Density = b.Density ∧ a.Conductivity = b.Conductivity ∧
  a.SolarTransmittance = b.SolarTransmittance ∧
  a.SolarReflectanceFront = b.SolarReflectanceFront ∧
  a.SolarReflectanceBack = b.SolarReflectanceBack ∧
  a.VisibleTransmittance = b.VisibleTransmittance ∧
  a.VisibleReflectanceFront = b.VisibleReflectanceFront ∧
  a.VisibleReflectanceBack = b.VisibleReflectanceBack ∧
  a.IRTransmittance = b.IRTransmittance ∧
  a.IREmissivityFront = b.IREmissivityFront ∧
  a.IREmissivityBack = b.IREmissivityBack ∧
  a.DirtFactor = b.DirtFactor ∧
  a.Type_ = b.Type_ ∧ a.Cost = b.Cost ∧ a.Life = b.Life

instance (a b : GlazingMaterial) : Decidable (glazingEq a b) := by
  unfold glazingEq; infer_instance

/-- `GlazingMaterial.combine` (glazing_material.py lines 125-187).  After the
type check (always satisfied in this typed embedding) and the value-equality
short-circuit, the attribute loop (lines 154-181) applies `_float_mean` with
weights `[self.Density, other.Density]` (when no weights are supplied) to every
numeric attribute, `_str_mean` with `append=False` to every string attribute,
and concatenation to every list attribute; an attribute holding `None` (no
handled kind) hits the final `raise NotImplementedError`, modelled as the
error case, and that happens exactly when `DataSource`, `Category` or `Type`
is `None` on `self`.  The metadata of the result comes from
`_get_predecessors_meta`, whose module is not part of the studied sources;
modelled from the spec: the result is a new entity with a new `Name` derived
from both inputs and a fresh id (the fresh runtime id is opaque here and
rendered as `0`). -/
def glazingCombine (self other : GlazingMaterial) (weights : Option (ℚ × ℚ)) :
    Except String GlazingMaterial :=
  if glazingEq self other then .ok self
  else
    match self.DataSource, self.Category, self.Type_ with
    | some _, some _, some _ =>
        let w := weights.getD (self.Density, other.Density)
        .ok
          { Name := self.Name ++ " + " ++ other.Name
            Category := strMean false self.Category other.Category
            Comments := ""
            DataSource := strMean false self.DataSource other.DataSource
            id := 0
            Life := floatMean (some w) self.Life other.Life
            Cost := floatMean (some w) self.Cost other.Cost
            Type_ := strMean false self.Type_ other.Type_
            DirtFactor := floatMean (some w) self.DirtFactor other.DirtFactor
            IREmissivityBack := floatMean (some w) self.IREmissivityBack other.IREmissivityBack
            IREmissivityFront := floatMean (some w) self.IREmissivityFront other.IREmissivityFront
            IRTransmittance := floatMean (some w) self.IRTransmittance other.IRTransmittance
            VisibleReflectanceBack :=
              floatMean (some w) self.VisibleReflectanceBack other.VisibleReflectanceBack
            VisibleReflectanceFront :=
              floatMean (some w) self.VisibleReflectanceFront other.VisibleReflectanceFront
            VisibleTransmittance :=
              floatMean (some w) self.VisibleTransmittance other.VisibleTransmittance
            SolarReflectanceBack :=
              floatMean (some w) self.SolarReflectanceBack other.SolarReflectanceBack
            SolarReflectanceFront :=
              floatMean (some w) self.SolarReflectanceFront other.SolarReflectanceFront
            SolarTransmittance :=
              floatMean (some w) self.SolarTransmittance other.SolarTransmittance
            Density := floatMean (some w) self.Density other.Density
            Conductivity := floatMean (some w) self.Conductivity other.Conductivity
            EmbodiedCarbon := floatMean (some w) self.EmbodiedCarbon other.EmbodiedCarbon
            EmbodiedEnergy := floatMean (some w) self.EmbodiedEnergy other.EmbodiedEnergy
            SubstitutionRatePattern :=
              self.SubstitutionRatePattern ++ other.SubstitutionRatePattern
            SubstitutionTimestep :=
              floatMean (some w) self.SubstitutionTimestep other.SubstitutionTimestep
            TransportCarbon := floatMean (some w) self.TransportCarbon other.TransportCarbon
            TransportDistance :=
              floatMean (some w) self.TransportDistance other.TransportDistance
            TransportEnergy := floatMean (some w) self.TransportEnergy other.TransportEnergy }
    | _, _, _ => .error "NotImplementedError"

/-! ## Window settings (`window.py`) -/

/-- A `WindowSetting` instance (window.py lines 144-191): the numeric and
boolean attributes that `__add__` merges, plus the identity, the `Name` and
the referenced construction/schedule objects (represented by their ids),
which `__add__` leaves untouched.  `Type` is a Lean keyword, hence `Type_`. -/
structure WindowSetting where
  Name : String
  id : Nat
  Construction : Nat
  AfnWindowAvailability : Nat
  ShadingSystemAvailabilitySchedule : Nat
  ZoneMixingAvailabilitySchedule : Nat
  AfnDischargeC : ℚ
  AfnTempSetpoint : ℚ
  IsShadingSystemOn : Bool
  IsVirtualPartition : Bool
  IsZoneMixingOn : Bool
  OperableArea : ℚ
  ShadingSystemSetpoint : ℚ
  ShadingSystemTransmittance : ℚ
  ShadingSystemType : ℚ
  Type_ : ℚ
  ZoneMixingDeltaTemperature : ℚ
  ZoneMixingFlowRate : ℚ
deriving DecidableEq

/-- `WindowSetting.__add__` (window.py lines 218-245): the operation assigns
`max` of the two values to every numeric setpoint/rate attribute of `self`,
`any` (logical or) to every boolean flag of `self`, keeps `self`'s
`ShadingSystemType` and `Type`, and returns `self` — no new object is
created.  The mutation is rendered by explicit state passing: the returned
record is the post-state of the left operand (same id, same `Name`, same
referenced objects). -/
def windowAdd (self other : WindowSetting) : WindowSetting :=
  { self with
    AfnDischargeC := max self.AfnDischargeC other.AfnDischargeC
    AfnTempSetpoint := max self.AfnTempSetpoint other.AfnTempSetpoint
    IsShadingSystemOn := self.IsShadingSystemOn || other.IsShadingSystemOn
    IsVirtualPartition := self.IsVirtualPartition || other.IsVirtualPartition
    IsZoneMixingOn := self.IsZoneMixingOn || other.IsZoneMixingOn
    OperableArea := max self.OperableArea other.OperableArea
    ShadingSystemSetpoint := max self.ShadingSystemSetpoint other.ShadingSystemSetpoint
    ShadingSystemTransmittance :=
      max self.ShadingSystemTransmittance other.ShadingSystemTransmittance
    ZoneMixingDeltaTemperature :=
      max self.ZoneMixingDeltaTemperature other.ZoneMixingDeltaTemperature
    ZoneMixingFlowRate := max self.ZoneMixingFlowRate other.ZoneMixingFlowRate }

/-! ## Zones (`zone.py`) -/

/-- Modelled from the spec: the zone-setting entity kinds (`ZoneConditioning`,
`ZoneLoad`, `VentilationSetting`, `DomesticHotWaterSetting`, the window
setting used inside `Zone.combine`, and the internal-mass construction) whose
modules are not part of the studied sources.  Per §4.4 every kind implements
the same `combine(other, weights)` contract with entity-specific merge rules
and the §4.2 short-circuit on value equality; the zone-level claims depend
only on value equality of settings and on `combine` being total, so a setting
is represented by a name and one representative value merged by the §4.4
weighted mean. -/
structure Setting where
  name : String
  value : ℚ
deriving DecidableEq

/-- Modelled from the spec: the shared `combine(other, weights)` contract of
zone-setting entities (§4.4), with the §4.2 equal-value short-circuit. -/
def Setting.combine (s o : Setting) (w : ℚ × ℚ) : Setting :=
  if s = o then s
  else { name := s.name ++ " + " ++ o.name, value := floatMean (some w) s.value o.value }

/-- A `Zone` instance (zone.py lines 44-99): the owned setting objects, the
daylight/internal-mass scalars, and the geometric `_area`/`_volume` values
(supplied directly, as the `area`/`volume` properties return them when set,
zone.py lines 132-172).  `Windows` may be absent (zone.py line 91). -/
structure Zone where
  Name : String
  id : Nat
  Conditioning : Setting
  Constructions : Setting
  DomesticHotWater : Setting
  Loads : Setting
  Ventilation : Setting
  Windows : Option Setting
  InternalMassConstruction : Setting
  InternalMassExposedPerFloorArea : ℚ
  DaylightMeshResolution : ℚ
  DaylightWorkplaneHeight : ℚ
  area : ℚ
  volume : ℚ
deriving DecidableEq

/-- `Zone.__eq__` (zone.py lines 112-130): value equality over the seven owned
setting objects and the three daylight/internal-mass scalars; `Name`, the id,
`area` and `volume` are not compared. -/
def zoneEq (a b : Zone) : Prop :=
  a.Conditioning = b.Conditioning ∧
  a.Constructions = b.Constructions ∧
  a.DomesticHotWater = b.DomesticHotWater ∧
  a.Loads = b.Loads ∧
  a.Ventilation = b.Ventilation ∧
  a.Windows = b.Windows ∧
  a.InternalMassConstruction = b.InternalMassConstruction ∧
  a.InternalMassExposedPerFloorArea = b.InternalMassExposedPerFloorArea ∧
  a.DaylightMeshResolution = b.DaylightMeshResolution ∧
  a.DaylightWorkplaneHeight = b.DaylightWorkplaneHeight

instance (a b : Zone) : Decidable (zoneEq a b) := by
  unfold zoneEq; infer_instance

/-- `Zone.combine` (zone.py lines 408-485).  After the type check and the
value-equality short-circuit, the default weights are read from the operands'
configured zone-weight attribute (`settings.zone_weight`; modelled from the
spec, §4.4: volume is the default), each owned setting is combined with its
own rule under the same weights, the daylight/internal-mass scalars are
`_float_mean`-ed, `Windows` is combined only when both operands have one, and
the new zone's `_volume` and `_area` are set to the exact sums of the
operands' volumes and areas (zone.py lines 476-477).  The new object carries
metadata from `_get_predecessors_meta` (module not part of the studied
sources; modelled from the spec: a new `Name` derived from both inputs) and a
fresh runtime id, opaque here. -/
def zoneCombine (self other : Zone) (weights : Option (ℚ × ℚ)) : Zone :=
  if zoneEq self other then self
  else
    let w := weights.getD (self.volume, other.volume)
    { Name := self.Name ++ " + " ++ other.Name
      id := 0
      Conditioning := Setting.combine self.Conditioning other.Conditioning w
      Constructions := Setting.combine self.Constructions other.Constructions w
      DomesticHotWater := Setting.combine self.DomesticHotWater other.DomesticHotWater w
      Loads := Setting.combine self.Loads other.Loads w
      Ventilation := Setting.combine self.Ventilation other.Ventilation w
      Windows :=
        match self.Windows, other.Windows with
        | some a, some b => some (Setting.combine a b w)
        | _, _ => none
      InternalMassConstruction :=
        Setting.combine self.InternalMassConstruction other.InternalMassConstruction w
      InternalMassExposedPerFloorArea :=
        floatMean (some w) self.InternalMassExposedPerFloorArea
          other.InternalMassExposedPerFloorArea
      DaylightMeshResolution :=
        floatMean (some w) self.DaylightMeshResolution other.DaylightMeshResolution
      DaylightWorkplaneHeight :=
        floatMean (some w) self.DaylightWorkplaneHeight other.DaylightWorkplaneHeight
      area := self.area + other.area
      volume := self.volume + other.volume }

/-! ## Surface dispatch and zone construction sets (`zone_construction_set.py`) -/

/-- The five construction slots of a `ZoneConstructionSet` plus the tag each
`_do_*` handler writes into `oc.Surface_Type`. -/
inductive Slot where
  | Facade
  | Ground
  | Partition
  | Roof
  | Slab
deriving DecidableEq

/-- Modelled from the spec: `OpaqueConstruction` (§4.2, §4.3 — its module is
not part of the studied sources).  The claims need only a name, the surface
area the dispatch handlers assign (`oc.area = surf.area`), value equality, the
`OpaqueConstruction.generic` fallback used by `from_zone`, and a total
pairwise `combine` with the §4.2 equal-value short-circuit. -/
structure OpaqueConstruction where
  Name : String
  area : ℚ
deriving DecidableEq

/-- Modelled from the spec: the generic fallback construction
`OpaqueConstruction.generic(idf)` that `from_zone` assigns to a slot no
surface mapped to. -/
def OpaqueConstruction.generic : OpaqueConstruction :=
  { Name := "defaultConstruction", area := 0 }

/-- Modelled from the spec: `OpaqueConstruction.combine` (§4.2) — equal inputs
short-circuit to `self`; otherwise a new construction merging both (the
merged layers are irrelevant to the claims; areas add since dispatch groups
represent disjoint surfaces). -/
def OpaqueConstruction.combine (a b : OpaqueConstruction) : OpaqueConstruction :=
  if a = b then a
  else { Name := a.Name ++ " + " ++ b.Name, area := a.area + b.area }

/-- Python `str.upper`, applied to `surf.key` in `surface_dispatcher`
(zone_construction_set.py line 414). -/
def pyToUpper (s : String) : String :=
  String.mk (s.data.map Char.toUpper)

/-- Python `str.capitalize`: first character upper-cased, the rest
lower-cased, applied to `surf["Surface_Type"]` in `surface_dispatcher`
(zone_construction_set.py line 415). -/
def pyCapitalize (s : String) : String :=
  match s.data with
  | [] => ""
  | c :: cs => String.mk (c.toUpper :: cs.map Char.toLower)

/-- The dispatch table of `surface_dispatcher` (zone_construction_set.py lines
395-413), with each handler replaced by the slot tag it writes
(`_do_facade` → `Facade`, …); `_do_basement` (lines 370-386) logs the
unsupported basement facade and still tags the construction `Facade`.  A pair
outside the table is the `KeyError` case, modelled as `none`. -/
def dispatchSlot (surfaceType obc : String) : Option Slot :=
  match surfaceType, obc with
  | "Wall", "Outdoors" => some .Facade
  | "Floor", "Ground" => some .Ground
  | "Floor", "Outdoors" => some .Ground
  | "Floor", "Foundation" => some .Ground
  | "Floor", "Surface" => some .Slab
  | "Floor", "Adiabatic" => some .Slab
  | "Floor", "Zone" => some .Slab
  | "Wall", "Adiabatic" => some .Partition
  | "Wall", "Surface" => some .Partition
  | "Wall", "Zone" => some .Partition
  | "Wall", "Ground" => some .Facade
  | "Roof", "Outdoors" => some .Roof
  | "Roof", "Zone" => some .Roof
  | "Roof", "Surface" => some .Roof
  | "Ceiling", "Adiabatic" => some .Slab
  | "Ceiling", "Surface" => some .Slab
  | "Ceiling", "Zone" => some .Slab
  | _, _ => none

/-- A building surface descriptor, as consumed by `surface_dispatcher`: the
eppy object key, the `Surface_Type` and `Outside_Boundary_Condition` fields,
the referenced construction name and the surface area. -/
structure Surf where
  key : String
  Surface_Type : String
  Outside_Boundary_Condition : String
  Construction_Name : String
  area : ℚ
deriving DecidableEq

/-- `surface_dispatcher` (zone_construction_set.py lines 389-423): surfaces
whose key is `InternalMass` or `WindowShadingControl` are skipped (`none`);
otherwise the `(capitalize(Surface_Type), Outside_Boundary_Condition)` pair is
looked up in the table and the matching `_do_*` handler builds an
`OpaqueConstruction` from the surface's construction with `oc.area` set to the
surface area and `oc.Surface_Type` set to the slot tag; a `KeyError` becomes a
`NotImplementedError`.  (The handlers resolve `Construction_Name` against the
model; the embedding assumes the referenced construction exists, which is the
case the claims describe.) -/
def surfaceDispatcher (s : Surf) : Except String (Option (Slot × OpaqueConstruction)) :=
  if pyToUpper s.key = "INTERNALMASS" ∨ pyToUpper s.key = "WINDOWSHADINGCONTROL" then
    .ok none
  else
    match dispatchSlot (pyCapitalize s.Surface_Type) s.Outside_Boundary_Condition with
    | some slot => .ok (some (slot, { Name := s.Construction_Name, area := s.area }))
    | none => .error "NotImplementedError"

/-- A `ZoneConstructionSet` (zone_construction_set.py lines 13-59): the five
construction slots, each `None` until assigned, and the five adiabatic
flags. -/
structure ZoneConstructionSet where
  Name : String
  Facade : Option OpaqueConstruction
  Ground : Option OpaqueConstruction
  Partition : Option OpaqueConstruction
  Roof : Option OpaqueConstruction
  Slab : Option OpaqueConstruction
  IsFacadeAdiabatic : Bool
  IsGroundAdiabatic : Bool
  IsPartitionAdiabatic : Bool
  IsRoofAdiabatic : Bool
  IsSlabAdiabatic : Bool
deriving DecidableEq

/-- The per-slot reduction of `from_zone` (zone_construction_set.py lines
122-148): each group of dispatched constructions is deduplicated by value
equality (`set(...)`; a Python set iterates in an unspecified order, rendered
here as first-occurrence order) and reduced pairwise with
`OpaqueConstruction.combine`; an empty group yields the generic fallback. -/
def reduceGroup (g : List OpaqueConstruction) : OpaqueConstruction :=
  match g.eraseDups with
  | [] => OpaqueConstruction.generic
  | c :: cs => cs.foldl OpaqueConstruction.combine c

/-- `ZoneConstructionSet.from_zone` (zone_construction_set.py lines 91-161):
dispatch every zone surface (a `NotImplementedError` aborts the build),
group the produced constructions by slot tag, reduce each group, and build
the set — every slot receives a construction right here, the empty groups
getting `OpaqueConstruction.generic`. -/
def fromZone (zoneName : String) (surfs : List Surf) :
    Except String ZoneConstructionSet := do
  let dispatched ← surfs.mapM surfaceDispatcher
  let tagged := dispatched.filterMap id
  let grp := fun (sl : Slot) => (tagged.filter (fun p => p.1 == sl)).map (fun p => p.2)
  .ok
    { Name := zoneName ++ "_ZoneConstructionSet"
      Facade := some (reduceGroup (grp .Facade))
      Ground := some (reduceGroup (grp .Ground))
      Partition := some (reduceGroup (grp .Partition))
      Roof := some (reduceGroup (grp .Roof))
      Slab := some (reduceGroup (grp .Slab))
      IsFacadeAdiabatic := false
      IsGroundAdiabatic := false
      IsPartitionAdiabatic := false
      IsRoofAdiabatic := false
      IsSlabAdiabatic := false }

/-! ## Template graph serializer (`umi_template.py`) -/

/-- A template entity node as seen by `UmiTemplateLibrary.to_dict`
(umi_template.py lines 364-443): the runtime id (`obj.id`), the `Name`, the
category bucket name (`type(obj).__name__ + "s"`), and the child template
entities reachable through the public (non-underscore) fields, in field
order.  Sharing in the Python object graph — one entity referenced by several
parents — is represented by the same node (same id) occurring under several
parents. -/
inductive Ent : Type where
  | mk (id : Nat) (name : String) (cat : String) (children : List Ent)

def Ent.id : Ent → Nat
  | .mk i _ _ _ => i

def Ent.name : Ent → String
  | .mk _ n _ _ => n

def Ent.cat : Ent → String
  | .mk _ _ c _ => c

def Ent.children : Ent → List Ent
  | .mk _ _ _ cs => cs

/-- The seventeen top-level keys of the output document (umi_template.py lines
371-391). -/
def validCats : List String :=
  ["GasMaterials", "GlazingMaterials", "OpaqueMaterials", "OpaqueConstructions",
   "WindowConstructions", "StructureDefinitions", "DaySchedules", "WeekSchedules",
   "YearSchedules", "DomesticHotWaterSettings", "VentilationSettings",
   "ZoneConditionings", "ZoneConstructionSets", "ZoneLoads", "Zones",
   "WindowSettings", "BuildingTemplates"]

/-- One serialized bucket element: the full `to_json` form of an entity is
represented by its `$id` and `Name`, the two fields every element carries
(spec §6). -/
structure Row where
  id : Nat
  name : String
deriving DecidableEq

/-- The state threaded through `recursive_json`: `visited` is the key set of
the `jsonized` dict, and `out` records every full emission as a
(bucket, row) pair in emission order — appending to `data_dict[catname]` is
recovered by filtering `out` on the bucket name. -/
structure SState where
  visited : List Nat
  out : List (String × Row)

mutual
/-- `recursive_json` (umi_template.py lines 394-418) on one object: if the
object's category is a document bucket and its id has not been jsonized yet,
append its serialized form to that bucket and mark the id visited; then
recurse into the child entities regardless. -/
def serEnt : Ent → SState → SState
  | .mk i n c cs, st =>
      let st1 :=
        if c ∈ validCats ∧ i ∉ st.visited then
          { visited := i :: st.visited, out := st.out ++ [(c, ⟨i, n⟩)] }
        else st
      serList cs st1

/-- `recursive_json` over a list of child objects, left to right. -/
def serList : List Ent → SState → SState
  | [], st => st
  | e :: rest, st => serList rest (serEnt e st)
end

/-- The order the buckets are sorted by (umi_template.py lines 434-437):
ascending `Name`. -/
def rowLe (a b : Row) : Prop :=
  a.name ≤ b.name

instance : DecidableRel rowLe := fun a b => inferInstanceAs (Decidable (a.name ≤ b.name))

instance : IsTotal Row rowLe :=
  ⟨fun a b => le_total a.name b.name⟩

instance : IsTrans Row rowLe :=
  ⟨fun _ _ _ hab hbc => le_trans hab hbc⟩

/-- The rows emitted into one bucket, in emission order. -/
def bucketRows (out : List (String × Row)) (c : String) : List Row :=
  (out.filter (fun p => p.1 == c)).map (fun p => p.2)

/-- `UmiTemplateLibrary.to_dict` (umi_template.py lines 364-443): run
`recursive_json` over every building template, sort every bucket by `Name`
(Python's stable `sorted`, rendered as insertion sort), and, if no gas
material was emitted, append one synthetic `AIR` entry to `GasMaterials`
(lines 439-441) — `airId` is the fresh runtime id of that synthetic object. -/
def toDoc (blds : List Ent) (airId : Nat) : String → List Row :=
  let st := serList blds ⟨[], []⟩
  fun c =>
    let sorted := List.insertionSort rowLe (bucketRows st.out c)
    if c = "GasMaterials" ∧ sorted = [] then [⟨airId, "AIR"⟩] else sorted

/-- Occurrence of an entity inside the object graph hanging off another
entity: reflexively, or inside one of the children. -/
inductive Occurs : Ent → Ent → Prop where
  | here (e : Ent) : Occurs e e
  | there {a c : Ent} {i : Nat} {n cat : String} {cs : List Ent}
      (hc : c ∈ cs) (h : Occurs a c) : Occurs a (.mk i n cat cs)

/-! ## Batch reduction driver (`umi_template.py`) -/

/-- Modelled from the spec: `parallel_process` (§5 — its module is not part of
the studied sources): one reduction task per input model, results collected
with per-task failures captured as error values rather than aborting the
batch.  Completion order is irrelevant to the claims and rendered as input
order. -/
def parallelProcess (f : α → Except ε β) (inputs : List α) : List (Except ε β) :=
  inputs.map f

/-- `UmiTemplateLibrary.read_idf` (umi_template.py lines 154-214): run the
per-model reduction task over every input file; if every collected result is
an exception, raise a hard failure; otherwise the library's building
templates are exactly the non-exception results, and the exceptions are only
logged. -/
def readIdf (f : α → Except ε β) (inputs : List α) : Except String (List β) :=
  let results := parallelProcess f inputs
  if results.all (fun r => !r.isOk) then
    .error "Complexity reduction failed for all buildings."
  else
    .ok (results.filterMap Except.toOption)

/-! ## Demonstration objects used by witnesses and counterexamples -/

/-- A concrete zone-setting value. -/
def demoSetting (nm : String) (v : ℚ) : Setting :=
  { name := nm, value := v }

/-- A concrete zone: Name `Core`, area 50, volume 100. -/
def demoZoneA : Zone :=
  { Name := "Core", id := 1
    Conditioning := demoSetting "cond" 1, Constructions := demoSetting "cset" 2
    DomesticHotWater := demoSetting "dhw" 3, Loads := demoSetting "loads" 4
    Ventilation := demoSetting "vent" 5, Windows := some (demoSetting "win" 6)
    InternalMassConstruction := demoSetting "imc" 7
    InternalMassExposedPerFloorArea := 1
    DaylightMeshResolution := 1, DaylightWorkplaneHeight := 2
    area := 50, volume := 100 }

/-- A concrete zone with a different `Name` and different geometry but the
same owned settings as `demoZoneA`. -/
def demoZoneB : Zone :=
  { demoZoneA with Name := "Perim", id := 2, area := 25, volume := 50 }

/-- A concrete zone with the same geometry as `demoZoneB` but different
loads, hence not value-equal to `demoZoneA`. -/
def demoZoneC : Zone :=
  { demoZoneB with Name := "Perim2", id := 3, Loads := demoSetting "loads" 9 }

/-! ## C1 -/

/-- Instance ids found in the registry are below the allocator counter. -/
theorem CacheState.lookup_lt_next {st : CacheState} (hwf : st.WF) {k : CacheKey}
    {i : Nat} (h : st.lookup k = some i) : i < st.next := by
  unfold CacheState.lookup at h
  cases hf : st.created.find? (fun p => p.1 == k) with
  | none => rw [hf] at h; simp at h
  | some p =>
      rw [hf] at h
      simp only [Option.map_some'] at h
      injection h with h'
      exact h' ▸ hwf p (List.mem_of_find?_eq_some hf)

/-- The registry after `clear_cache` resolves no key. -/
theorem clearCache_lookup (st : CacheState) (k : CacheKey) :
    (clearCache st).lookup k = none := by
  simp [clearCache, CacheState.lookup]

/-- A freshly registered key resolves to the freshly allocated instance. -/
theorem CacheState.lookup_cons_self (created : List (CacheKey × Nat)) (nx : Nat)
    (k : CacheKey) (n : Nat) :
    CacheState.lookup ⟨(k, n) :: created, nx⟩ k = some n := by
  unfold CacheState.lookup
  rw [List.find?_cons_of_pos]
  · rfl
  · exact beq_self_eq_true k

/-- Clearing the cache keeps the allocator counter. -/
theorem clearCache_next (st : CacheState) : (clearCache st).next = st.next :=
  rfl

/-- C1 (amended): for an entity type constructed through the `Unique`
metaclass, constructing a second time with the same `Name` returns the very
instance of the first construction, whatever the second call's other
constructor arguments are, and after `clear_cache()` a new construction with
that `Name` returns a different instance.  (The original claim quantifies
over every template entity type; `Zone` is not constructed through `Unique`
and violates it, see the counterexample.) -/
theorem unique_metaclass_identity (st : CacheState) (hwf : st.WF)
    (cls Name : String) (a₁ a₂ a₃ : List Int) :
    (uniqueCall (uniqueCall st cls Name a₁).2 cls Name a₂).1
        = (uniqueCall st cls Name a₁).1 ∧
    (uniqueCall
        (clearCache (uniqueCall (uniqueCall st cls Name a₁).2 cls Name a₂).2)
        cls Name a₃).1
      ≠ (uniqueCall st cls Name a₁).1 := by
  cases h : st.lookup (cls, Name) with
  | some i =>
      have hi : i < st.next := CacheState.lookup_lt_next hwf h
      refine ⟨?_, ?_⟩ <;>
        simp only [uniqueCall, h, clearCache_lookup, clearCache_next]
      omega
  | none =>
      refine ⟨?_, ?_⟩ <;>
        simp only [uniqueCall, h, CacheState.lookup_cons_self, clearCache_lookup, clearCache_next]
      omega

/-- C1 witness: running `unique_metaclass_identity` on the empty cache and a
concrete type and name. -/
theorem unique_metaclass_identity_witness :
    CacheState.WF ⟨[], 0⟩ ∧
    ((uniqueCall (uniqueCall ⟨[], 0⟩ "GlazingMaterial" "mat_a" []).2
        "GlazingMaterial" "mat_a" [1]).1
      = (uniqueCall ⟨[], 0⟩ "GlazingMaterial" "mat_a" []).1 ∧
    (uniqueCall
        (clearCache (uniqueCall (uniqueCall ⟨[], 0⟩ "GlazingMaterial" "mat_a" []).2
          "GlazingMaterial" "mat_a" [1]).2)
        "GlazingMaterial" "mat_a" [2]).1
      ≠ (uniqueCall ⟨[], 0⟩ "GlazingMaterial" "mat_a" []).1) :=
  ⟨fun p hp => absurd hp (List.not_mem_nil p),
   unique_metaclass_identity ⟨[], 0⟩ (fun p hp => absurd hp (List.not_mem_nil p))
     "GlazingMaterial" "mat_a" [] [1] [2]⟩

/-- C1 counterexample: `Zone` is a template entity type, but constructing a
`Zone` twice with the same `Name` (and the same idf) yields two different
instances — `Zone` is not built through `Unique.__call__`, so the claim's
quantification over every template entity type fails. -/
theorem zone_construct_not_unique :
    (zoneConstruct (zoneConstruct ⟨[], 0⟩ "Office" "idf").2 "Office" "idf").1
      ≠ (zoneConstruct ⟨[], 0⟩ "Office" "idf").1 := by
  decide

/-! ## C9 -/

/-- C9: `WindowSetting.__add__` does not create a new entity — it overwrites
the fields of the left operand in place (boolean flags become the logical or
of the two inputs, setpoints and flow rates become the maximum of the two
inputs) and returns the left operand itself: the post-state of the left
operand is the returned value, with the identity, `Name` and referenced
objects unchanged, so after the combination the left input holds the merged
values instead of its original ones. -/
theorem window_add_in_place (a b : WindowSetting) :
    (windowAdd a b).id = a.id ∧
    (windowAdd a b).Name = a.Name ∧
    (windowAdd a b).Construction = a.Construction ∧
    (windowAdd a b).AfnWindowAvailability = a.AfnWindowAvailability ∧
    (windowAdd a b).ShadingSystemAvailabilitySchedule = a.ShadingSystemAvailabilitySchedule ∧
    (windowAdd a b).ZoneMixingAvailabilitySchedule = a.ZoneMixingAvailabilitySchedule ∧
    (windowAdd a b).IsShadingSystemOn = (a.IsShadingSystemOn || b.IsShadingSystemOn) ∧
    (windowAdd a b).IsVirtualPartition = (a.IsVirtualPartition || b.IsVirtualPartition) ∧
    (windowAdd a b).IsZoneMixingOn = (a.IsZoneMixingOn || b.IsZoneMixingOn) ∧
    (windowAdd a b).AfnDischargeC = max a.AfnDischargeC b.AfnDischargeC ∧
    (windowAdd a b).AfnTempSetpoint = max a.AfnTempSetpoint b.AfnTempSetpoint ∧
    (windowAdd a b).OperableArea = max a.OperableArea b.OperableArea ∧
    (windowAdd a b).ShadingSystemSetpoint = max a.ShadingSystemSetpoint b.ShadingSystemSetpoint ∧
    (windowAdd a b).ShadingSystemTransmittance
        = max a.ShadingSystemTransmittance b.ShadingSystemTransmittance ∧
    (windowAdd a b).ShadingSystemType = a.ShadingSystemType ∧
    (windowAdd a b).Type_ = a.Type_ ∧
    (windowAdd a b).ZoneMixingDeltaTemperature
        = max a.ZoneMixingDeltaTemperature b.ZoneMixingDeltaTemperature ∧
    (windowAdd a b).ZoneMixingFlowRate = max a.ZoneMixingFlowRate b.ZoneMixingFlowRate := by
  refine ⟨rfl, rfl, rfl, rfl, rfl, rfl, rfl, rfl, rfl, rfl, rfl, rfl, rfl, rfl, rfl,
    rfl, rfl, rfl⟩

/-! ## C10 -/

/-- C10: `Zone.__eq__` compares only the owned setting objects and the
daylight/internal-mass scalars — never `Name`, `area` or `volume` — so two
zones agreeing on those ten fields are value-equal however their names and
geometry differ, and `Zone.combine` short-circuits on them, returning the
first zone unchanged with no area or volume summation. -/
theorem zone_eq_ignores_name_geometry (a b : Zone) (w : Option (ℚ × ℚ))
    (h₁ : a.Conditioning = b.Conditioning) (h₂ : a.Constructions = b.Constructions)
    (h₃ : a.DomesticHotWater = b.DomesticHotWater) (h₄ : a.Loads = b.Loads)
    (h₅ : a.Ventilation = b.Ventilation) (h₆ : a.Windows = b.Windows)
    (h₇ : a.InternalMassConstruction = b.InternalMassConstruction)
    (h₈ : a.InternalMassExposedPerFloorArea = b.InternalMassExposedPerFloorArea)
    (h₉ : a.DaylightMeshResolution = b.DaylightMeshResolution)
    (h₁₀ : a.DaylightWorkplaneHeight = b.DaylightWorkplaneHeight) :
    zoneEq a b ∧ zoneCombine a b w = a := by
  have he : zoneEq a b := ⟨h₁, h₂, h₃, h₄, h₅, h₆, h₇, h₈, h₉, h₁₀⟩
  refine ⟨he, ?_⟩
  unfold zoneCombine
  rw [if_pos he]

/-- C10 witness: `demoZoneA` and `demoZoneB` have different names (`Core` /
`Perim`), different areas (50 / 25) and different volumes (100 / 50), yet
are value-equal and `combine` returns `demoZoneA` itself. -/
theorem zone_eq_ignores_name_geometry_witness :
    (demoZoneA.Name ≠ demoZoneB.Name ∧ demoZoneA.area ≠ demoZoneB.area ∧
      demoZoneA.volume ≠ demoZoneB.volume) ∧
    (zoneEq demoZoneA demoZoneB ∧ zoneCombine demoZoneA demoZoneB none = demoZoneA) :=
  ⟨by refine ⟨?_, ?_, ?_⟩ <;> decide,
   zone_eq_ignores_name_geometry demoZoneA demoZoneB none rfl rfl rfl rfl rfl rfl rfl
     rfl rfl rfl⟩

/-! ## C2 -/

/-- C2 counterexample: `demoZoneA` and `demoZoneB` have disjoint Names
(`Core` vs `Perim`), but because they are value-equal (`Zone.__eq__` ignores
`Name`, area and volume) the combine short-circuit fires and the result's
area and volume are `demoZoneA`'s, not the sums. -/
theorem zone_combine_disjoint_names_counterexample :
    demoZoneA.Name ≠ demoZoneB.Name ∧
    (zoneCombine demoZoneA demoZoneB none).area ≠ demoZoneA.area + demoZoneB.area ∧
    (zoneCombine demoZoneA demoZoneB none).volume ≠ demoZoneA.volume + demoZoneB.volume := by
  have he : zoneEq demoZoneA demoZoneB :=
    ⟨rfl, rfl, rfl, rfl, rfl, rfl, rfl, rfl, rfl, rfl⟩
  have hc : zoneCombine demoZoneA demoZoneB none = demoZoneA := by
    unfold zoneCombine
    rw [if_pos he]
  refine ⟨by decide, ?_, ?_⟩ <;> rw [hc] <;> with_unfolding_all decide

/-- C2 (amended): for two zones that are not value-equal under `Zone.__eq__`
(disjoint names alone do not guarantee this), the combined zone's area and
volume are the exact sums of the operands' areas and volumes — not a weighted
mean (zone.py lines 476-477); value-equal zones instead short-circuit to the
first operand. -/
theorem zone_combine_sums_area_volume (z₁ z₂ : Zone) (w : Option (ℚ × ℚ))
    (h : ¬ zoneEq z₁ z₂) :
    (zoneCombine z₁ z₂ w).area = z₁.area + z₂.area ∧
    (zoneCombine z₁ z₂ w).volume = z₁.volume + z₂.volume := by
  unfold zoneCombine
  rw [if_neg h]
  exact ⟨rfl, rfl⟩

/-- C2 witness: `demoZoneA` and `demoZoneC` differ in their loads, so the
combined zone sums areas (50 + 25) and volumes (100 + 50). -/
theorem zone_combine_sums_area_volume_witness :
    (¬ zoneEq demoZoneA demoZoneC) ∧
    (zoneCombine demoZoneA demoZoneC none).area = demoZoneA.area + demoZoneC.area ∧
    (zoneCombine demoZoneA demoZoneC none).volume = demoZoneA.volume + demoZoneC.volume :=
  ⟨by decide, zone_combine_sums_area_volume demoZoneA demoZoneC none (by decide)⟩

/-! ## C7 -/

/-- C7: combining two value-equal entities of the same concrete type returns
the very first operand (the same instance, hence value-equal to it, with no
new entity created): `GlazingMaterial.combine` (glazing_material.py lines
142-144) and `Zone.combine` (zone.py lines 427-429) both short-circuit on
`self == other`. -/
theorem combine_equal_short_circuit :
    (∀ (m₁ m₂ : GlazingMaterial) (w : Option (ℚ × ℚ)),
        glazingEq m₁ m₂ → glazingCombine m₁ m₂ w = .ok m₁) ∧
    (∀ (z₁ z₂ : Zone) (w : Option (ℚ × ℚ)),
        zoneEq z₁ z₂ → zoneCombine z₁ z₂ w = z₁) := by
  constructor
  · intro m₁ m₂ w h
    unfold glazingCombine
    rw [if_pos h]
  · intro z₁ z₂ w h
    unfold zoneCombine
    rw [if_pos h]

/-- A concrete glazing material: Density 100, Conductivity 2. -/
def demoGlzA : GlazingMaterial :=
  { Name := "mat_a", Category := some "Uncategorized", Comments := ""
    DataSource := some "B_Off_0", id := 11
    Life := 1, Cost := 0, Type_ := some "Uncoated", DirtFactor := 1
    IREmissivityBack := 0, IREmissivityFront := 0, IRTransmittance := 0
    VisibleReflectanceBack := 0, VisibleReflectanceFront := 0
    VisibleTransmittance := 0, SolarReflectanceBack := 0
    SolarReflectanceFront := 0, SolarTransmittance := 0
    Density := 100, Conductivity := 2
    EmbodiedCarbon := 0, EmbodiedEnergy := 0, SubstitutionRatePattern := [1]
    SubstitutionTimestep := 0, TransportCarbon := 0, TransportDistance := 0
    TransportEnergy := 0 }

/-- A glazing material value-equal to `demoGlzA` but with a different `Name`
and id. -/
def demoGlzA2 : GlazingMaterial :=
  { demoGlzA with Name := "mat_a_copy", id := 12 }

/-- A concrete glazing material not value-equal to `demoGlzA`: Density 300,
Conductivity 5. -/
def demoGlzB : GlazingMaterial :=
  { demoGlzA with Name := "mat_b", id := 13, Density := 300, Conductivity := 5 }

/-- C7 witness: combining `demoGlzA` with the value-equal `demoGlzA2` returns
`demoGlzA` itself, and combining `demoZoneA` with the value-equal `demoZoneB`
returns `demoZoneA` itself. -/
theorem combine_equal_short_circuit_witness :
    (glazingEq demoGlzA demoGlzA2 ∧
      glazingCombine demoGlzA demoGlzA2 none = .ok demoGlzA) ∧
    (zoneEq demoZoneA demoZoneB ∧
      zoneCombine demoZoneA demoZoneB none = demoZoneA) :=
  ⟨⟨by decide, combine_equal_short_circuit.1 demoGlzA demoGlzA2 none (by decide)⟩,
   ⟨by decide, combine_equal_short_circuit.2 demoZoneA demoZoneB none (by decide)⟩⟩

/-! ## C3 -/

/-- The density-weighted arithmetic mean of two attribute values, stated as
the specification writes it: `(d₁·x + d₂·y)/(d₁ + d₂)` with `dᵢ` the operand
densities. -/
def densityMean (m₁ m₂ : GlazingMaterial) (x y : ℚ) : ℚ :=
  (m₁.Density * x + m₂.Density * y) / (m₁.Density + m₂.Density)

/-- C3: combining two glazing materials that are not value-equal, without
explicit weights, yields a material whose every numeric attribute is the
density-weighted arithmetic mean of the two inputs; in particular
`Conductivity` becomes `(d₁·c₁ + d₂·c₂)/(d₁ + d₂)`.  The nonzero total
density reflects that `np.average` raises on a zero weight sum; the string
attribute hypotheses make the dynamic attribute loop succeed (an attribute
holding `None` would raise `NotImplementedError`). -/
theorem glazing_combine_density_weighted (m₁ m₂ : GlazingMaterial)
    (hne : ¬ glazingEq m₁ m₂)
    (hd : m₁.Density + m₂.Density ≠ 0)
    (hds : m₁.DataSource.isSome) (hcat : m₁.Category.isSome)
    (ht : m₁.Type_.isSome) :
    ∃ r, glazingCombine m₁ m₂ none = .ok r ∧
      r.Conductivity = densityMean m₁ m₂ m₁.Conductivity m₂.Conductivity ∧
      r.Density = densityMean m₁ m₂ m₁.Density m₂.Density ∧
      r.Cost = densityMean m₁ m₂ m₁.Cost m₂.Cost ∧
      r.Life = densityMean m₁ m₂ m₁.Life m₂.Life ∧
      r.DirtFactor = densityMean m₁ m₂ m₁.DirtFactor m₂.DirtFactor ∧
      r.IREmissivityBack = densityMean m₁ m₂ m₁.IREmissivityBack m₂.IREmissivityBack ∧
      r.IREmissivityFront = densityMean m₁ m₂ m₁.IREmissivityFront m₂.IREmissivityFront ∧
      r.IRTransmittance = densityMean m₁ m₂ m₁.IRTransmittance m₂.IRTransmittance ∧
      r.VisibleReflectanceBack
          = densityMean m₁ m₂ m₁.VisibleReflectanceBack m₂.VisibleReflectanceBack ∧
      r.VisibleReflectanceFront
          = densityMean m₁ m₂ m₁.VisibleReflectanceFront m₂.VisibleReflectanceFront ∧
      r.VisibleTransmittance
          = densityMean m₁ m₂ m₁.VisibleTransmittance m₂.VisibleTransmittance ∧
      r.SolarReflectanceBack
          = densityMean m₁ m₂ m₁.SolarReflectanceBack m₂.SolarReflectanceBack ∧
      r.SolarReflectanceFront
          = densityMean m₁ m₂ m₁.SolarReflectanceFront m₂.SolarReflectanceFront ∧
      r.SolarTransmittance
          = densityMean m₁ m₂ m₁.SolarTransmittance m₂.SolarTransmittance ∧
      r.EmbodiedCarbon = densityMean m₁ m₂ m₁.EmbodiedCarbon m₂.EmbodiedCarbon ∧
      r.EmbodiedEnergy = densityMean m₁ m₂ m₁.EmbodiedEnergy m₂.EmbodiedEnergy ∧
      r.SubstitutionTimestep
          = densityMean m₁ m₂ m₁.SubstitutionTimestep m₂.SubstitutionTimestep ∧
      r.TransportCarbon = densityMean m₁ m₂ m₁.TransportCarbon m₂.TransportCarbon ∧
      r.TransportDistance = densityMean m₁ m₂ m₁.TransportDistance m₂.TransportDistance ∧
      r.TransportEnergy = densityMean m₁ m₂ m₁.TransportEnergy m₂.TransportEnergy := by
  obtain ⟨ds, hds'⟩ := Option.isSome_iff_exists.mp hds
  obtain ⟨ct, hct'⟩ := Option.isSome_iff_exists.mp hcat
  obtain ⟨ty, hty'⟩ := Option.isSome_iff_exists.mp ht
  unfold glazingCombine
  rw [if_neg hne, hds', hct', hty']
  exact ⟨_, rfl, rfl, rfl, rfl, rfl, rfl, rfl, rfl, rfl, rfl, rfl, rfl, rfl, rfl, rfl,
    rfl, rfl, rfl, rfl, rfl, rfl⟩

/-- C3 witness: the spec's instance — densities 100 and 300, conductivities 2
and 5, no explicit weights — gives `Conductivity = (100·2 + 300·5)/400 =
17/4`. -/
theorem glazing_combine_density_weighted_witness :
    ((¬ glazingEq demoGlzA demoGlzB) ∧ demoGlzA.Density + demoGlzB.Density ≠ 0 ∧
      demoGlzA.DataSource.isSome ∧ demoGlzA.Category.isSome ∧ demoGlzA.Type_.isSome) ∧
    (∃ r, glazingCombine demoGlzA demoGlzB none = .ok r ∧
      r.Conductivity = densityMean demoGlzA demoGlzB demoGlzA.Conductivity demoGlzB.Conductivity ∧
      r.Density = densityMean demoGlzA demoGlzB demoGlzA.Density demoGlzB.Density ∧
      r.Cost = densityMean demoGlzA demoGlzB demoGlzA.Cost demoGlzB.Cost ∧
      r.Life = densityMean demoGlzA demoGlzB demoGlzA.Life demoGlzB.Life ∧
      r.DirtFactor = densityMean demoGlzA demoGlzB demoGlzA.DirtFactor demoGlzB.DirtFactor ∧
      r.IREmissivityBack
          = densityMean demoGlzA demoGlzB demoGlzA.IREmissivityBack demoGlzB.IREmissivityBack ∧
      r.IREmissivityFront
          = densityMean demoGlzA demoGlzB demoGlzA.IREmissivityFront demoGlzB.IREmissivityFront ∧
      r.IRTransmittance
          = densityMean demoGlzA demoGlzB demoGlzA.IRTransmittance demoGlzB.IRTransmittance ∧
      r.VisibleReflectanceBack
          = densityMean demoGlzA demoGlzB demoGlzA.VisibleReflectanceBack demoGlzB.VisibleReflectanceBack ∧
      r.VisibleReflectanceFront
          = densityMean demoGlzA demoGlzB demoGlzA.VisibleReflectanceFront demoGlzB.VisibleReflectanceFront ∧
      r.VisibleTransmittance
          = densityMean demoGlzA demoGlzB demoGlzA.VisibleTransmittance demoGlzB.VisibleTransmittance ∧
      r.SolarReflectanceBack
          = densityMean demoGlzA demoGlzB demoGlzA.SolarReflectanceBack demoGlzB.SolarReflectanceBack ∧
      r.SolarReflectanceFront
          = densityMean demoGlzA demoGlzB demoGlzA.SolarReflectanceFront demoGlzB.SolarReflectanceFront ∧
      r.SolarTransmittance
          = densityMean demoGlzA demoGlzB demoGlzA.SolarTransmittance demoGlzB.SolarTransmittance ∧
      r.EmbodiedCarbon
          = densityMean demoGlzA demoGlzB demoGlzA.EmbodiedCarbon demoGlzB.EmbodiedCarbon ∧
      r.EmbodiedEnergy
          = densityMean demoGlzA demoGlzB demoGlzA.EmbodiedEnergy demoGlzB.EmbodiedEnergy ∧
      r.SubstitutionTimestep
          = densityMean demoGlzA demoGlzB demoGlzA.SubstitutionTimestep demoGlzB.SubstitutionTimestep ∧
      r.TransportCarbon
          = densityMean demoGlzA demoGlzB demoGlzA.TransportCarbon demoGlzB.TransportCarbon ∧
      r.TransportDistance
          = densityMean demoGlzA demoGlzB demoGlzA.TransportDistance demoGlzB.TransportDistance ∧
      r.TransportEnergy
          = densityMean demoGlzA demoGlzB demoGlzA.TransportEnergy demoGlzB.TransportEnergy) ∧
    densityMean demoGlzA demoGlzB demoGlzA.Conductivity demoGlzB.Conductivity = 17/4 :=
  ⟨⟨by decide, by with_unfolding_all decide, rfl, rfl, rfl⟩,
   glazing_combine_density_weighted demoGlzA demoGlzB (by decide)
     (by with_unfolding_all decide) rfl rfl rfl,
   by with_unfolding_all decide⟩

/-! ## C8 -/

/-- C8: when reducing a batch of building models, a failing task's error is
recorded as that task's result while every other task's template is still
collected — the batch errors out if and only if every task fails, and on
success the library holds exactly the successful templates in task order. -/
theorem read_idf_batch (f : α → Except ε β) (inputs : List α) :
    ((∀ i ∈ inputs, (f i).isOk = false) →
        readIdf f inputs = .error "Complexity reduction failed for all buildings.") ∧
    ((∃ i ∈ inputs, (f i).isOk = true) →
        readIdf f inputs = .ok ((inputs.map f).filterMap Except.toOption)) := by
  constructor
  · intro h
    unfold readIdf parallelProcess
    rw [if_pos]
    rw [List.all_eq_true]
    intro r hr
    obtain ⟨i, hi, rfl⟩ := List.mem_map.mp hr
    simp [h i hi]
  · rintro ⟨i, hi, hok⟩
    unfold readIdf parallelProcess
    rw [if_neg]
    intro hall
    rw [List.all_eq_true] at hall
    have := hall (f i) (List.mem_map_of_mem f hi)
    simp [hok] at this

/-- C8 witness: with one failing model among three, the failure is recorded,
the other two templates are collected, and the batch succeeds; the theorem is
applied at the concrete task list. -/
theorem read_idf_batch_witness :
    (∃ i ∈ [0, 1, 2],
        ((fun n : Nat => if n = 0 then (.error "bad" : Except String Nat) else .ok n) i).isOk
          = true) ∧
    readIdf (fun n : Nat => if n = 0 then (.error "bad" : Except String Nat) else .ok n)
        [0, 1, 2]
      = .ok (([0, 1, 2].map
          (fun n : Nat => if n = 0 then (.error "bad" : Except String Nat) else .ok n)).filterMap
            Except.toOption) :=
  ⟨⟨1, by decide, rfl⟩,
   (read_idf_batch (fun n : Nat => if n = 0 then (.error "bad" : Except String Nat) else .ok n)
      [0, 1, 2]).2 ⟨1, by decide, rfl⟩⟩

/-! ## C4 -/

instance {ε α : Type} [DecidableEq ε] [DecidableEq α] : DecidableEq (Except ε α)
  | .error e, .error f =>
      if h : e = f then .isTrue (h ▸ rfl)
      else .isFalse (fun hc => h (Except.error.inj hc))
  | .error _, .ok _ => .isFalse (fun hc => Except.noConfusion hc)
  | .ok _, .error _ => .isFalse (fun hc => Except.noConfusion hc)
  | .ok x, .ok y =>
      if h : x = y then .isTrue (h ▸ rfl)
      else .isFalse (fun hc => h (Except.ok.inj hc))

/-- The documented dispatch table (spec §4.3): every
(Surface_Type, Outside_Boundary_Condition) pair and its slot, with
`(Wall, Ground)` — the unsupported basement facade — mapped to `Facade`. -/
def documentedTable : List ((String × String) × Slot) :=
  [(("Wall", "Outdoors"), .Facade),
   (("Floor", "Ground"), .Ground), (("Floor", "Outdoors"), .Ground),
   (("Floor", "Foundation"), .Ground),
   (("Floor", "Surface"), .Slab), (("Floor", "Adiabatic"), .Slab),
   (("Floor", "Zone"), .Slab),
   (("Wall", "Adiabatic"), .Partition), (("Wall", "Surface"), .Partition),
   (("Wall", "Zone"), .Partition),
   (("Wall", "Ground"), .Facade),
   (("Roof", "Outdoors"), .Roof), (("Roof", "Zone"), .Roof),
   (("Roof", "Surface"), .Roof),
   (("Ceiling", "Adiabatic"), .Slab), (("Ceiling", "Surface"), .Slab),
   (("Ceiling", "Zone"), .Slab)]

/-- C4: dispatching a non-internal-mass surface whose
(Surface_Type, Outside_Boundary_Condition) pair is in the documented table
assigns the documented slot — `(Wall, Ground)` going to `Facade` as the
unsupported basement facade; a pair of the documented domain outside the
table raises the hard classification error rather than skipping the surface;
internal-mass surfaces are excluded before classification. -/
theorem surface_dispatch_table_correct :
    (∀ row ∈ documentedTable,
        surfaceDispatcher ⟨"BuildingSurface:Detailed", row.1.1, row.1.2, "C", 1⟩
          = .ok (some (row.2, ⟨"C", 1⟩))) ∧
    (∀ st ∈ ["Wall", "Floor", "Roof", "Ceiling"],
      ∀ obc ∈ ["Outdoors", "Ground", "Surface", "Zone", "Adiabatic", "Foundation"],
        (st, obc) ∉ documentedTable.map Prod.fst →
          surfaceDispatcher ⟨"BuildingSurface:Detailed", st, obc, "C", 1⟩
            = .error "NotImplementedError") ∧
    (∀ s : Surf, s.key = "InternalMass" → surfaceDispatcher s = .ok none) := by
  refine ⟨by decide, by decide, ?_⟩
  intro s hs
  unfold surfaceDispatcher
  rw [hs, if_pos (by decide)]

/-- C4 witness: the basement row `(Wall, Ground)` classifies to `Facade`, and
the out-of-table pair `(Roof, Ground)` raises the classification error. -/
theorem surface_dispatch_table_correct_witness :
    ((("Wall", "Ground"), Slot.Facade) ∈ documentedTable ∧
      surfaceDispatcher ⟨"BuildingSurface:Detailed", "Wall", "Ground", "C", 1⟩
        = .ok (some (Slot.Facade, ⟨"C", 1⟩))) ∧
    ("Roof" ∈ ["Wall", "Floor", "Roof", "Ceiling"] ∧
      "Ground" ∈ ["Outdoors", "Ground", "Surface", "Zone", "Adiabatic", "Foundation"] ∧
      ("Roof", "Ground") ∉ documentedTable.map Prod.fst ∧
      surfaceDispatcher ⟨"BuildingSurface:Detailed", "Roof", "Ground", "C", 1⟩
        = .error "NotImplementedError") :=
  ⟨⟨by decide,
    surface_dispatch_table_correct.1 (("Wall", "Ground"), Slot.Facade) (by decide)⟩,
   ⟨by decide, by decide, by decide,
    surface_dispatch_table_correct.2.1 "Roof" (by decide) "Ground" (by decide) (by decide)⟩⟩

/-! ## C5 -/

/-- One Outdoors-facing wall surface, and nothing else. -/
def demoOutdoorWalls : List Surf :=
  [{ key := "BuildingSurface:Detailed", Surface_Type := "Wall",
     Outside_Boundary_Condition := "Outdoors", Construction_Name := "ExtWall",
     area := 10 }]

/-- C5 counterexample: a construction set built by `from_zone` from a zone
with only Outdoors-wall surfaces already holds the generic fallback in its
Ground, Roof and Slab slots — they are not `None` after construction, and no
`ZoneConstructionSet.validate()` step exists to fill them later. -/
theorem from_zone_slots_counterexample :
    (∀ s ∈ demoOutdoorWalls,
        s.Surface_Type = "Wall" ∧ s.Outside_Boundary_Condition = "Outdoors") ∧
    (fromZone "Office" demoOutdoorWalls).map ZoneConstructionSet.Ground
        = .ok (some OpaqueConstruction.generic) ∧
    (fromZone "Office" demoOutdoorWalls).map ZoneConstructionSet.Roof
        = .ok (some OpaqueConstruction.generic) ∧
    (fromZone "Office" demoOutdoorWalls).map ZoneConstructionSet.Slab
        = .ok (some OpaqueConstruction.generic) ∧
    (fromZone "Office" demoOutdoorWalls).map ZoneConstructionSet.Ground ≠ .ok none := by
  refine ⟨by decide, ?_, ?_, ?_, ?_⟩ <;> decide

/-- Dispatching a list of plain Outdoors-facing walls succeeds and tags every
produced construction with the `Facade` slot. -/
theorem mapM_dispatcher_facade (surfs : List Surf)
    (h : ∀ s ∈ surfs, surfaceDispatcher s
        = .ok (some (Slot.Facade, { Name := s.Construction_Name, area := s.area }))) :
    surfs.mapM surfaceDispatcher
      = .ok (surfs.map fun s =>
          some ((Slot.Facade, { Name := s.Construction_Name, area := s.area })
            : Slot × OpaqueConstruction)) := by
  induction surfs with
  | nil => rfl
  | cons s rest ih =>
      rw [List.mapM_cons, h s (List.mem_cons_self s rest),
        ih (fun x hx => h x (List.mem_cons_of_mem s hx))]
      rfl

/-- C5 (amended): a `ZoneConstructionSet` built by `from_zone` from a zone
whose surfaces are all Outdoors-facing walls holds the generic fallback
construction in its Ground, Roof and Slab slots immediately after
construction; the slots are never `None` and there is no separate
`validate()` step — `from_zone` itself substitutes the fallback. -/
theorem from_zone_generic_fallback (name : String) (surfs : List Surf)
    (h : ∀ s ∈ surfs,
        s.key = "BuildingSurface:Detailed" ∧
        s.Surface_Type = "Wall" ∧ s.Outside_Boundary_Condition = "Outdoors") :
    ∃ z, fromZone name surfs = .ok z ∧
      z.Ground = some OpaqueConstruction.generic ∧
      z.Roof = some OpaqueConstruction.generic ∧
      z.Slab = some OpaqueConstruction.generic := by
  have hdisp : ∀ s ∈ surfs, surfaceDispatcher s
      = .ok (some (Slot.Facade, { Name := s.Construction_Name, area := s.area })) := by
    intro s hs
    obtain ⟨h1, h2, h3⟩ := h s hs
    unfold surfaceDispatcher
    rw [h1, h2, h3, if_neg (by decide)]
    rfl
  have hmap := mapM_dispatcher_facade surfs hdisp
  have hgrp : ∀ sl : Slot, sl ≠ Slot.Facade →
      (((surfs.map fun s =>
          some ((Slot.Facade, { Name := s.Construction_Name, area := s.area })
            : Slot × OpaqueConstruction)).filterMap id).filter
        (fun p => p.1 == sl)).map (fun p => p.2) = [] := by
    intro sl hsl
    rw [List.map_eq_nil_iff, List.filter_eq_nil_iff]
    intro p hp
    obtain ⟨q, hq, hq'⟩ := List.mem_filterMap.mp hp
    obtain ⟨s, _, rfl⟩ := List.mem_map.mp hq
    cases hq'
    simp only [beq_iff_eq]
    exact fun hc => hsl hc.symm
  refine ⟨_, by unfold fromZone; rw [hmap]; rfl, ?_, ?_, ?_⟩ <;>
    (simp only [hgrp Slot.Ground (by decide), hgrp Slot.Roof (by decide),
      hgrp Slot.Slab (by decide), reduceGroup, List.eraseDups]; rfl)

/-- C5 witness: `from_zone_generic_fallback` at the single-wall zone. -/
theorem from_zone_generic_fallback_witness :
    (∀ s ∈ demoOutdoorWalls,
        s.key = "BuildingSurface:Detailed" ∧
        s.Surface_Type = "Wall" ∧ s.Outside_Boundary_Condition = "Outdoors") ∧
    (∃ z, fromZone "Office2" demoOutdoorWalls = .ok z ∧
      z.Ground = some OpaqueConstruction.generic ∧
      z.Roof = some OpaqueConstruction.generic ∧
      z.Slab = some OpaqueConstruction.generic) :=
  ⟨by decide, from_zone_generic_fallback "Office2" demoOutdoorWalls (by decide)⟩

/-! ## C6 -/

mutual
/-- The entity itself and every entity reachable below it through owned
fields. -/
def Ent.allNodes : Ent → List Ent
  | .mk i n c cs => .mk i n c cs :: nodesList cs

/-- All entities reachable from a list of entities. -/
def nodesList : List Ent → List Ent
  | [] => []
  | e :: rest => e.allNodes ++ nodesList rest
end

/-- The serializer invariant: the visited id set is duplicate-free and is
exactly the multiset of ids emitted into the buckets (`jsonized` is marked
exactly when a full form is appended, umi_template.py lines 400-403). -/
def SInv (st : SState) : Prop :=
  st.visited.Nodup ∧ (st.out.map fun p => p.2.id).Perm st.visited

mutual
theorem serEnt_visited_mono (e : Ent) (st : SState) :
    ∀ x ∈ st.visited, x ∈ (serEnt e st).visited := by
  cases e with
  | mk i n c cs =>
      intro x hx
      unfold serEnt
      refine serList_visited_mono cs _ x ?_
      split
      · exact List.mem_cons_of_mem _ hx
      · exact hx

theorem serList_visited_mono (es : List Ent) (st : SState) :
    ∀ x ∈ st.visited, x ∈ (serList es st).visited := by
  cases es with
  | nil => intro x hx; exact hx
  | cons e rest =>
      intro x hx
      unfold serList
      exact serList_visited_mono rest _ x (serEnt_visited_mono e st x hx)
end

mutual
theorem serEnt_inv (e : Ent) (st : SState) (h : SInv st) : SInv (serEnt e st) := by
  cases e with
  | mk i n c cs =>
      unfold serEnt
      refine serList_inv cs _ ?_
      by_cases hc : c ∈ validCats ∧ i ∉ st.visited
      · rw [if_pos hc]
        obtain ⟨hnd, hperm⟩ := h
        refine ⟨List.nodup_cons.mpr ⟨hc.2, hnd⟩, ?_⟩
        have hmap : ((st.out ++ [(c, (⟨i, n⟩ : Row))]).map fun p => p.2.id)
            = (st.out.map fun p => p.2.id) ++ [i] := by simp
        rw [hmap]
        exact (List.perm_append_singleton _ _).trans (hperm.cons i)
      · rw [if_neg hc]; exact h

theorem serList_inv (es : List Ent) (st : SState) (h : SInv st) : SInv (serList es st) := by
  cases es with
  | nil => exact h
  | cons e rest =>
      unfold serList
      exact serList_inv rest _ (serEnt_inv e st h)
end

mutual
theorem serEnt_covers (e : Ent) (st : SState) :
    ∀ a ∈ e.allNodes, a.cat ∈ validCats → a.id ∈ (serEnt e st).visited := by
  cases e with
  | mk i n c cs =>
      intro a ha hcat
      rw [Ent.allNodes] at ha
      unfold serEnt
      rcases List.mem_cons.mp ha with rfl | ha'
      · refine serList_visited_mono cs _ _ ?_
        by_cases hv : i ∈ st.visited
        · split
          · exact List.mem_cons_of_mem _ hv
          · exact hv
        · rw [if_pos ⟨hcat, hv⟩]
          exact List.mem_cons_self _ _
      · exact serList_covers cs _ a ha' hcat

theorem serList_covers (es : List Ent) (st : SState) :
    ∀ a ∈ nodesList es, a.cat ∈ validCats → a.id ∈ (serList es st).visited := by
  cases es with
  | nil => intro a ha; exact absurd ha (List.not_mem_nil a)
  | cons e rest =>
      intro a ha hcat
      rw [nodesList] at ha
      unfold serList
      rcases List.mem_append.mp ha with h1 | h2
      · exact serList_visited_mono rest _ _ (serEnt_covers e st a h1 hcat)
      · exact serList_covers rest _ a h2 hcat
end

mutual
theorem serEnt_out_src (e : Ent) (st : SState) :
    ∀ p ∈ (serEnt e st).out,
      p ∈ st.out ∨ ∃ a ∈ e.allNodes, p.1 = a.cat ∧ p.2.id = a.id := by
  cases e with
  | mk i n c cs =>
      intro p hp
      unfold serEnt at hp
      rcases serList_out_src cs _ p hp with h1 | ⟨a, ha, hpa⟩
      · by_cases hc : c ∈ validCats ∧ i ∉ st.visited
        · rw [if_pos hc] at h1
          rcases List.mem_append.mp h1 with h2 | h3
          · exact .inl h2
          · right
            have hp3 : p = (c, (⟨i, n⟩ : Row)) := List.mem_singleton.mp h3
            subst hp3
            exact ⟨.mk i n c cs, by rw [Ent.allNodes]; exact List.mem_cons_self _ _,
              rfl, rfl⟩
        · rw [if_neg hc] at h1
          exact .inl h1
      · right
        exact ⟨a, by rw [Ent.allNodes]; exact List.mem_cons_of_mem _ ha, hpa⟩

theorem serList_out_src (es : List Ent) (st : SState) :
    ∀ p ∈ (serList es st).out,
      p ∈ st.out ∨ ∃ a ∈ nodesList es, p.1 = a.cat ∧ p.2.id = a.id := by
  cases es with
  | nil => intro p hp; exact .inl hp
  | cons e rest =>
      intro p hp
      unfold serList at hp
      rcases serList_out_src rest _ p hp with h1 | ⟨a, ha, hpa⟩
      · rcases serEnt_out_src e st p h1 with h2 | ⟨a, ha, hpa⟩
        · exact .inl h2
        · right
          exact ⟨a, by rw [nodesList]; exact List.mem_append_left _ ha, hpa⟩
      · right
        exact ⟨a, by rw [nodesList]; exact List.mem_append_right _ ha, hpa⟩
end

/-- Reachability through a member of a list of roots gives reachability from
the list. -/
theorem mem_nodesList_of_mem {b : Ent} {es : List Ent} (hb : b ∈ es) {a : Ent}
    (ha : a ∈ b.allNodes) : a ∈ nodesList es := by
  induction es with
  | nil => cases hb
  | cons e rest ih =>
      rw [nodesList]
      rcases List.mem_cons.mp hb with rfl | h
      · exact List.mem_append_left _ ha
      · exact List.mem_append_right _ (ih h)

/-- A row of the final document either was emitted by the traversal into that
bucket, or is the synthetic `AIR` gas material. -/
theorem mem_toDoc_cases (blds : List Ent) (airId : Nat) (c : String) (r : Row)
    (hr : r ∈ toDoc blds airId c) :
    (c, r) ∈ (serList blds ⟨[], []⟩).out ∨ (c = "GasMaterials" ∧ r = ⟨airId, "AIR"⟩) := by
  simp only [toDoc] at hr
  split at hr
  · rename_i hcond
    exact .inr ⟨hcond.1, List.mem_singleton.mp hr⟩
  · left
    have hb : r ∈ bucketRows (serList blds ⟨[], []⟩).out c :=
      (List.perm_insertionSort rowLe _).subset hr
    unfold bucketRows at hb
    obtain ⟨p, hpf, hpr⟩ := List.mem_map.mp hb
    obtain ⟨hpmem, hpc⟩ := List.mem_filter.mp hpf
    cases p with
    | mk p1 p2 =>
        have hp1 : p1 = c := by simpa using hpc
        subst hp1
        cases hpr
        exact hpmem

/-- An emitted pair appears among the rows of its bucket. -/
theorem mem_bucketRows {out : List (String × Row)} {p : String × Row} (hp : p ∈ out) :
    p.2 ∈ bucketRows out p.1 := by
  unfold bucketRows
  exact List.mem_map_of_mem _ (List.mem_filter.mpr ⟨hp, by simp⟩)

/-- C6: during serialization of a library, each distinct entity id is emitted
in full at most once across the whole document and only into the bucket
matching its concrete type (later encounters of an already emitted id
contribute nothing), every bucket of the final document is sorted by `Name`,
and every reachable entity whose category is a document bucket is emitted.
`hair` states that the synthetic `AIR` entry gets a fresh runtime id, and
`hcons` that ids are object identities (two reachable entities with the same
id are the same object, hence of the same category). -/
theorem to_dict_dedup_sorted (blds : List Ent) (airId : Nat)
    (hair : ∀ p ∈ (serList blds ⟨[], []⟩).out, p.2.id ≠ airId)
    (hcons : ∀ a ∈ nodesList blds, ∀ b ∈ nodesList blds, a.id = b.id → a.cat = b.cat) :
    (∀ c₁ c₂ r₁ r₂, r₁ ∈ toDoc blds airId c₁ → r₂ ∈ toDoc blds airId c₂ →
        r₁.id = r₂.id → c₁ = c₂ ∧ r₁ = r₂) ∧
    (∀ c, List.Sorted rowLe (toDoc blds airId c)) ∧
    (∀ b ∈ blds, ∀ a ∈ b.allNodes, a.cat ∈ validCats →
        ∃ r ∈ toDoc blds airId a.cat, r.id = a.id) := by
  have hinv : SInv (serList blds ⟨[], []⟩) :=
    serList_inv blds ⟨[], []⟩ ⟨List.nodup_nil, List.Perm.refl []⟩
  have hnodup : ((serList blds ⟨[], []⟩).out.map fun p => p.2.id).Nodup :=
    (hinv.2.nodup_iff).mpr hinv.1
  refine ⟨?_, ?_, ?_⟩
  · intro c₁ c₂ r₁ r₂ h1 h2 hid
    rcases mem_toDoc_cases blds airId c₁ r₁ h1 with ho1 | ⟨hc1, hr1⟩
    · rcases mem_toDoc_cases blds airId c₂ r₂ h2 with ho2 | ⟨hc2, hr2⟩
      · have heq : (c₁, r₁) = (c₂, r₂) :=
          List.inj_on_of_nodup_map hnodup ho1 ho2 hid
        exact ⟨congrArg Prod.fst heq, congrArg Prod.snd heq⟩
      · exact absurd (hid.trans (by rw [hr2])) (hair _ ho1)
    · rcases mem_toDoc_cases blds airId c₂ r₂ h2 with ho2 | ⟨hc2, hr2⟩
      · exact absurd ((hid.symm).trans (by rw [hr1])) (hair _ ho2)
      · subst hr1
        subst hr2
        exact ⟨hc1.trans hc2.symm, rfl⟩
  · intro c
    simp only [toDoc]
    split
    · exact List.sorted_singleton _
    · exact List.sorted_insertionSort rowLe _
  · intro b hb a ha hcat
    have hvis : a.id ∈ (serList blds ⟨[], []⟩).visited :=
      serList_covers blds ⟨[], []⟩ a (mem_nodesList_of_mem hb ha) hcat
    have hidm : a.id ∈ (serList blds ⟨[], []⟩).out.map fun p => p.2.id :=
      (hinv.2.mem_iff).mpr hvis
    obtain ⟨p, hpmem, hpid⟩ := List.mem_map.mp hidm
    rcases serList_out_src blds ⟨[], []⟩ p hpmem with hemp | ⟨a', ha', hpc, hpid'⟩
    · exact absurd hemp (List.not_mem_nil p)
    · have hcat' : a'.cat = a.cat :=
        hcons a' ha' a (mem_nodesList_of_mem hb ha) (by rw [← hpid', hpid])
      have hrow : p.2 ∈ bucketRows (serList blds ⟨[], []⟩).out a.cat := by
        have hm := mem_bucketRows hpmem
        rwa [hpc, hcat'] at hm
      refine ⟨p.2, ?_, hpid⟩
      simp only [toDoc]
      split
      · rename_i hcond
        exfalso
        have hms : p.2 ∈ List.insertionSort rowLe
            (bucketRows (serList blds ⟨[], []⟩).out a.cat) :=
          ((List.perm_insertionSort rowLe _).symm.subset) hrow
        rw [hcond.2] at hms
        exact absurd hms (List.not_mem_nil _)
      · exact ((List.perm_insertionSort rowLe _).symm.subset) hrow

/-- Every entity occurs among its own reachable nodes. -/
theorem self_mem_allNodes (e : Ent) : e ∈ e.allNodes := by
  cases e with
  | mk i n c cs =>
      rw [Ent.allNodes]
      exact List.mem_cons_self _ _

/-- A material shared by two building templates. -/
def demoMat : Ent := .mk 5 "MatShared" "OpaqueMaterials" []

/-- First building template, referencing the shared material. -/
def demoBld1 : Ent := .mk 1 "B1" "BuildingTemplates" [demoMat]

/-- Second building template, referencing the same shared material. -/
def demoBld2 : Ent := .mk 2 "B2" "BuildingTemplates" [demoMat]

/-- A two-building library in which `demoMat` has two parents. -/
def demoLib : List Ent := [demoBld1, demoBld2]

/-- C6 witness: `to_dict_dedup_sorted` applied to the two-building library
whose shared material is referenced by both buildings, with a fresh id for
the synthetic `AIR` entry. -/
theorem to_dict_dedup_sorted_witness :
    (∀ p ∈ (serList demoLib ⟨[], []⟩).out, p.2.id ≠ 99) ∧
    (∀ a ∈ nodesList demoLib, ∀ b ∈ nodesList demoLib, a.id = b.id → a.cat = b.cat) ∧
    (∀ c, List.Sorted rowLe (toDoc demoLib 99 c)) ∧
    (demoBld1 ∈ demoLib ∧ demoMat ∈ demoBld1.allNodes ∧ demoMat.cat ∈ validCats ∧
      ∃ r ∈ toDoc demoLib 99 demoMat.cat, r.id = demoMat.id) := by
  have hair : ∀ p ∈ (serList demoLib ⟨[], []⟩).out, p.2.id ≠ 99 := by decide
  have hcons : ∀ a ∈ nodesList demoLib, ∀ b ∈ nodesList demoLib,
      a.id = b.id → a.cat = b.cat := by decide
  have hm1 : demoBld1 ∈ demoLib := by simp [demoLib]
  have hm2 : demoMat ∈ demoBld1.allNodes := by
    simp only [demoBld1, Ent.allNodes, nodesList, List.append_nil, List.mem_cons]
    exact Or.inr (self_mem_allNodes demoMat)
  refine ⟨hair, hcons, (to_dict_dedup_sorted demoLib 99 hair hcons).2.1, ?_⟩
  refine ⟨hm1, hm2, by decide, ?_⟩
  exact (to_dict_dedup_sorted demoLib 99 hair hcons).2.2 demoBld1 hm1 demoMat hm2
    (by decide)
